import Mathlib

/-!
Verification of the coronary-angle-calculator geometry core.

This file gives a shallow embedding, over the real numbers, of the
geometric reconstruction and angle-optimization routines of the
repository (`src/lib/geometryCalculations.js`, `src/lib/mathValidation.js`
and the unnamed vessel-tracking / corrected-math modules), and proves or
refutes the frozen specification claims about them.

JavaScript floating-point numbers are modelled as `ℝ`; the float
sentinels `Infinity` / `-Infinity` used by a few accumulation loops are
modelled by `WithTop ℝ` / `WithBot ℝ`.  Functions that `throw` are
modelled as `Except Err` values.
-/

set_option maxHeartbeats 1000000

noncomputable section

/-- Errors thrown by the embedded routines (JS `throw new Error(...)`). -/
inductive Err where
  /-- `imageCoordinatesTo3DDirection`: "Points are identical". -/
  | pointsIdentical
  /-- `calculatePlaneNormal`: "Directions are parallel". -/
  | parallelDirections
  /-- `extractVesselCenterline`: "At least 2 seed points required". -/
  | insufficientSeedPoints
  /-- both optimizers: "Exactly 3 vessel directions required". -/
  | invalidVesselCount
  /-- `detectBifurcationPoint`: "All vessel centerlines must have points". -/
  | emptyCenterlines
  /-- `detectBifurcationPoint`: "Could not detect bifurcation point". -/
  | bifurcationNotFound
  /-- `triangulate3DPoint`: "Point at infinity - triangulation failed". -/
  | pointAtInfinity
  deriving DecidableEq

/-- A 3D vector `[x, y, z]` (JS arrays of three numbers). -/
@[ext] structure Vec3 where
  x : ℝ
  y : ℝ
  z : ℝ
  deriving Inhabited

/-- A 2D point `{x, y}`. -/
@[ext] structure Pt where
  x : ℝ
  y : ℝ
  deriving Inhabited

/-- A 3x3 matrix as three rows (JS array of three 3-arrays). -/
@[ext] structure Mat3 where
  r0 : Vec3
  r1 : Vec3
  r2 : Vec3

/-- `multiplyMatrixVector` of geometryCalculations.js (3x3 matrix times vector). -/
def multiplyMatrixVector (m : Mat3) (v : Vec3) : Vec3 :=
  ⟨m.r0.x * v.x + m.r0.y * v.y + m.r0.z * v.z,
   m.r1.x * v.x + m.r1.y * v.y + m.r1.z * v.z,
   m.r2.x * v.x + m.r2.y * v.y + m.r2.z * v.z⟩

/-- `transposeMatrix3x3` of geometryCalculations.js. -/
def transposeMatrix3x3 (m : Mat3) : Mat3 :=
  ⟨⟨m.r0.x, m.r1.x, m.r2.x⟩, ⟨m.r0.y, m.r1.y, m.r2.y⟩, ⟨m.r0.z, m.r1.z, m.r2.z⟩⟩

/-- `multiplyMatrices3x3` (both unnamed modules): the triple loop computes the
standard row-by-column product; this is that product written out. -/
def multiplyMatrices3x3 (A B : Mat3) : Mat3 :=
  ⟨⟨A.r0.x * B.r0.x + A.r0.y * B.r1.x + A.r0.z * B.r2.x,
    A.r0.x * B.r0.y + A.r0.y * B.r1.y + A.r0.z * B.r2.y,
    A.r0.x * B.r0.z + A.r0.y * B.r1.z + A.r0.z * B.r2.z⟩,
   ⟨A.r1.x * B.r0.x + A.r1.y * B.r1.x + A.r1.z * B.r2.x,
    A.r1.x * B.r0.y + A.r1.y * B.r1.y + A.r1.z * B.r2.y,
    A.r1.x * B.r0.z + A.r1.y * B.r1.z + A.r1.z * B.r2.z⟩,
   ⟨A.r2.x * B.r0.x + A.r2.y * B.r1.x + A.r2.z * B.r2.x,
    A.r2.x * B.r0.y + A.r2.y * B.r1.y + A.r2.z * B.r2.y,
    A.r2.x * B.r0.z + A.r2.y * B.r1.z + A.r2.z * B.r2.z⟩⟩

/-- Dot product of two 3D vectors (inlined at several places in the source). -/
def dot3 (a b : Vec3) : ℝ := a.x * b.x + a.y * b.y + a.z * b.z

/-- Degrees-to-radians conversion `(deg * Math.PI) / 180` used throughout. -/
def degToRad (d : ℝ) : ℝ := d * Real.pi / 180

/-- JS `Math.round`: round half toward positive infinity, `⌊x + 1/2⌋`. -/
def jsRound (x : ℝ) : ℝ := (⌊x + 1 / 2⌋ : ℤ)

/-- `Math.round(x * 10) / 10`: round to one decimal place. -/
def round1 (x : ℝ) : ℝ := jsRound (x * 10) / 10

/-- `projectionAnglesToRotationMatrix` (geometryCalculations.js lines 12-30):
the literal matrix written in the source. -/
def projectionAnglesToRotationMatrix (raoLao cranialCaudal : ℝ) : Mat3 :=
  let raoRad := degToRad raoLao
  let cranialRad := degToRad cranialCaudal
  let cosRao := Real.cos raoRad
  let sinRao := Real.sin raoRad
  let cosCranial := Real.cos cranialRad
  let sinCranial := Real.sin cranialRad
  ⟨⟨cosRao, -sinRao * cosCranial, sinRao * sinCranial⟩,
   ⟨sinRao, cosRao * cosCranial, -cosRao * sinCranial⟩,
   ⟨0, sinCranial, cosCranial⟩⟩

/-- `R_rao` of createProjectionMatrix (unnamed part_001): rotation about
the longitudinal Z axis by `raoLao` degrees. -/
def R_rao (raoLao : ℝ) : Mat3 :=
  let raoRad := degToRad raoLao
  ⟨⟨Real.cos raoRad, -Real.sin raoRad, 0⟩,
   ⟨Real.sin raoRad, Real.cos raoRad, 0⟩,
   ⟨0, 0, 1⟩⟩

/-- `R_cranial` of createProjectionMatrix (unnamed part_001): rotation about
the lateral X axis by `cranialCaudal` degrees. -/
def R_cranial (cranialCaudal : ℝ) : Mat3 :=
  let cranialRad := degToRad cranialCaudal
  ⟨⟨1, 0, 0⟩,
   ⟨0, Real.cos cranialRad, -Real.sin cranialRad⟩,
   ⟨0, Real.sin cranialRad, Real.cos cranialRad⟩⟩

/-- A row of a 3x4 projection matrix. -/
@[ext] structure Row4 where
  a : ℝ
  b : ℝ
  c : ℝ
  d : ℝ

/-- A 3x4 projection matrix as three rows. -/
@[ext] structure Mat34 where
  r0 : Row4
  r1 : Row4
  r2 : Row4

/-- `createProjectionMatrix` (unnamed part_001 lines 20-56): builds the
combined rotation `R = R_cranial * R_rao` and a 3x4 matrix `[R | -R*(R*camera)]`. -/
def createProjectionMatrix (raoLao cranialCaudal : ℝ)
    (sourceDistance : ℝ := 1000) (detectorDistance : ℝ := 300) : Mat34 :=
  let R := multiplyMatrices3x3 (R_cranial cranialCaudal) (R_rao raoLao)
  let totalDistance := sourceDistance + detectorDistance
  let cameraPos : Vec3 := ⟨0, 0, totalDistance⟩
  let rotatedCameraPos := multiplyMatrixVector R cameraPos
  let Rt := multiplyMatrixVector R
    ⟨-rotatedCameraPos.x, -rotatedCameraPos.y, -rotatedCameraPos.z⟩
  ⟨⟨R.r0.x, R.r0.y, R.r0.z, Rt.x⟩,
   ⟨R.r1.x, R.r1.y, R.r1.z, Rt.y⟩,
   ⟨R.r2.x, R.r2.y, R.r2.z, Rt.z⟩⟩

/-- The 3x3 rotation block of a 3x4 projection matrix. -/
def rotationPart (P : Mat34) : Mat3 :=
  ⟨⟨P.r0.a, P.r0.b, P.r0.c⟩, ⟨P.r1.a, P.r1.b, P.r1.c⟩, ⟨P.r2.a, P.r2.b, P.r2.c⟩⟩

/-- `solveDLT` (unnamed part_001 lines 245-252): the placeholder solver;
ignores its input and returns the homogeneous vector `[0, 0, 0, 1]`. -/
def solveDLT (_A : List Row4) : ℝ × ℝ × ℝ × ℝ := (0, 0, 0, 1)

/-- `triangulate3DPoint` (unnamed part_001 lines 66-97): builds the DLT
system from the two image points and projection matrices, calls `solveDLT`,
errors on a zero homogeneous weight, and dehomogenizes. -/
def triangulate3DPoint (point1 point2 : Pt) (P1 P2 : Mat34) : Except Err Vec3 :=
  let x1 := point1.x
  let y1 := point1.y
  let x2 := point2.x
  let y2 := point2.y
  let A : List Row4 :=
    [⟨x1 * P1.r2.a - P1.r0.a, x1 * P1.r2.b - P1.r0.b,
      x1 * P1.r2.c - P1.r0.c, x1 * P1.r2.d - P1.r0.d⟩,
     ⟨y1 * P1.r2.a - P1.r1.a, y1 * P1.r2.b - P1.r1.b,
      y1 * P1.r2.c - P1.r1.c, y1 * P1.r2.d - P1.r1.d⟩,
     ⟨x2 * P2.r2.a - P2.r0.a, x2 * P2.r2.b - P2.r0.b,
      x2 * P2.r2.c - P2.r0.c, x2 * P2.r2.d - P2.r0.d⟩,
     ⟨y2 * P2.r2.a - P2.r1.a, y2 * P2.r2.b - P2.r1.b,
      y2 * P2.r2.c - P2.r1.c, y2 * P2.r2.d - P2.r1.d⟩]
  let solution := solveDLT A
  if solution.2.2.2 = 0 then .error .pointAtInfinity
  else .ok ⟨solution.1 / solution.2.2.2, solution.2.1 / solution.2.2.2,
            solution.2.2.1 / solution.2.2.2⟩

/-- `calculateViewingDirection` (mathValidation.js lines 203-212, and inlined
verbatim in both `calculateViewingScore` and `calculateForeshorteningScore`):
direction from patient toward detector for a given angle pair. -/
def calculateViewingDirection (raoLao cranialCaudal : ℝ) : Vec3 :=
  let raoRad := degToRad raoLao
  let cranialRad := degToRad cranialCaudal
  ⟨-Real.sin raoRad * Real.cos cranialRad,
   Real.cos raoRad * Real.cos cranialRad,
   Real.sin cranialRad⟩

/-- `calculateSingleVesselScore` (mathValidation.js lines 184-201): normalizes
both vectors, then returns the sine of the angle between them. -/
def calculateSingleVesselScore (vesselDirection viewingDirection : Vec3) : ℝ :=
  let vesselLength := Real.sqrt (vesselDirection.x ^ 2 + vesselDirection.y ^ 2 +
    vesselDirection.z ^ 2)
  let viewLength := Real.sqrt (viewingDirection.x ^ 2 + viewingDirection.y ^ 2 +
    viewingDirection.z ^ 2)
  if vesselLength = 0 ∨ viewLength = 0 then 0
  else
    let normalizedVessel : Vec3 := ⟨vesselDirection.x / vesselLength,
      vesselDirection.y / vesselLength, vesselDirection.z / vesselLength⟩
    let normalizedView : Vec3 := ⟨viewingDirection.x / viewLength,
      viewingDirection.y / viewLength, viewingDirection.z / viewLength⟩
    let dotProduct := normalizedVessel.x * normalizedView.x +
      normalizedVessel.y * normalizedView.y + normalizedVessel.z * normalizedView.z
    Real.sqrt (1 - dotProduct * dotProduct)

/-- C1: `createProjectionMatrix`'s rotation block is the composition
`R_cranial * R_rao` as claimed, but `projectionAnglesToRotationMatrix` is the
swapped product `R_rao * R_cranial`, and the two differ (e.g. at 90/90), so the
claim fails for the geometryCalculations.js implementation (whose own comment
says `R = R_cranial * R_rao`). -/
theorem claim_C1_rotation_composition :
    (∀ raoLao cranialCaudal sourceDistance detectorDistance : ℝ,
      rotationPart (createProjectionMatrix raoLao cranialCaudal
          sourceDistance detectorDistance)
        = multiplyMatrices3x3 (R_cranial cranialCaudal) (R_rao raoLao)) ∧
    (∀ raoLao cranialCaudal : ℝ,
      projectionAnglesToRotationMatrix raoLao cranialCaudal
        = multiplyMatrices3x3 (R_rao raoLao) (R_cranial cranialCaudal)) ∧
    projectionAnglesToRotationMatrix 90 90
      ≠ multiplyMatrices3x3 (R_cranial 90) (R_rao 90) := by
  refine ⟨fun r c s d => rfl, fun r c => ?_, ?_⟩
  · ext <;>
      (simp only [projectionAnglesToRotationMatrix, multiplyMatrices3x3,
        R_rao, R_cranial]; ring)
  · intro h
    have e : degToRad 90 = Real.pi / 2 := by unfold degToRad; ring
    have h2 := congrArg (fun m => m.r2.x) h
    simp only [projectionAnglesToRotationMatrix, multiplyMatrices3x3,
      R_rao, R_cranial, e, Real.sin_pi_div_two, Real.cos_pi_div_two] at h2
    norm_num at h2

/-- C3: for unit vectors, `calculateSingleVesselScore v d = sqrt(1 - (v·d)^2)`;
it is 0 for parallel unit vectors, 1 for perpendicular ones, and about 0.707
at a 45-degree angle. -/
theorem claim_C3_single_vessel_score (v d : Vec3)
    (hv : v.x ^ 2 + v.y ^ 2 + v.z ^ 2 = 1)
    (hd : d.x ^ 2 + d.y ^ 2 + d.z ^ 2 = 1) :
    calculateSingleVesselScore v d = Real.sqrt (1 - dot3 v d ^ 2) ∧
    calculateSingleVesselScore ⟨1, 0, 0⟩ ⟨1, 0, 0⟩ = 0 ∧
    calculateSingleVesselScore ⟨0, 1, 0⟩ ⟨1, 0, 0⟩ = 1 ∧
    |calculateSingleVesselScore ⟨Real.sqrt 2 / 2, Real.sqrt 2 / 2, 0⟩ ⟨1, 0, 0⟩
      - 0.707| ≤ 1 / 1000 := by
  have h2 : Real.sqrt 2 * Real.sqrt 2 = 2 := Real.mul_self_sqrt (by norm_num)
  refine ⟨?_, ?_, ?_, ?_⟩
  · simp only [calculateSingleVesselScore, hv, hd, Real.sqrt_one]
    rw [if_neg (by norm_num)]
    congr 1
    simp only [div_one, dot3]
    ring
  · simp only [calculateSingleVesselScore]
    norm_num
  · simp only [calculateSingleVesselScore]
    norm_num
  · have harg : (Real.sqrt 2 / 2) ^ 2 + (Real.sqrt 2 / 2) ^ 2 + (0:ℝ) ^ 2 = 1 := by
      rw [div_pow, sq, h2]; norm_num
    have hview : Real.sqrt ((1:ℝ) ^ 2 + 0 ^ 2 + 0 ^ 2) = 1 := by
      rw [show (1:ℝ) ^ 2 + 0 ^ 2 + 0 ^ 2 = 1 by norm_num, Real.sqrt_one]
    simp only [calculateSingleVesselScore, harg, hview, Real.sqrt_one]
    rw [if_neg (by norm_num)]
    have hdot : Real.sqrt 2 / 2 / 1 * (1 / 1) + Real.sqrt 2 / 2 / 1 * (0 / 1) +
        (0:ℝ) / 1 * (0 / 1) = Real.sqrt 2 / 2 := by ring
    rw [show ((1:ℝ) - (Real.sqrt 2 / 2 / 1 * (1 / 1) + Real.sqrt 2 / 2 / 1 * (0 / 1)
        + (0:ℝ) / 1 * (0 / 1)) * (Real.sqrt 2 / 2 / 1 * (1 / 1) +
        Real.sqrt 2 / 2 / 1 * (0 / 1) + (0:ℝ) / 1 * (0 / 1))) = 1 / 2 by
      rw [hdot]; field_simp; linarith [h2]]
    have hs : Real.sqrt (1 / 2) ^ 2 = 1 / 2 := Real.sq_sqrt (by norm_num)
    have hnn : 0 ≤ Real.sqrt (1 / 2) := Real.sqrt_nonneg _
    rw [abs_le]
    constructor <;> nlinarith [hs, hnn]

/-- Witness for C3 at concrete unit vectors. -/
theorem claim_C3_witness :
    calculateSingleVesselScore ⟨1, 0, 0⟩ ⟨0, 1, 0⟩
        = Real.sqrt (1 - dot3 ⟨1, 0, 0⟩ ⟨0, 1, 0⟩ ^ 2) ∧
    calculateSingleVesselScore ⟨1, 0, 0⟩ ⟨1, 0, 0⟩ = 0 ∧
    calculateSingleVesselScore ⟨0, 1, 0⟩ ⟨1, 0, 0⟩ = 1 ∧
    |calculateSingleVesselScore ⟨Real.sqrt 2 / 2, Real.sqrt 2 / 2, 0⟩ ⟨1, 0, 0⟩
      - 0.707| ≤ 1 / 1000 :=
  claim_C3_single_vessel_score ⟨1, 0, 0⟩ ⟨0, 1, 0⟩ (by norm_num) (by norm_num)

/-- JS `Math.atan2(y, x)`. -/
def jsAtan2 (y x : ℝ) : ℝ :=
  if 0 < x then Real.arctan (y / x)
  else if x < 0 ∧ 0 ≤ y then Real.arctan (y / x) + Real.pi
  else if x < 0 then Real.arctan (y / x) - Real.pi
  else if 0 < y then Real.pi / 2
  else if y < 0 then -(Real.pi / 2)
  else 0

/-- A `{raoLao, cranialCaudal}` angle pair in degrees. -/
@[ext] structure ProjAngles where
  raoLao : ℝ
  cranialCaudal : ℝ

/-- `normalVectorToProjectionAngles` (geometryCalculations.js lines 101-130):
`raoLao = atan2(nx, ny)` folded into [-90, 90], `cranialCaudal = asin(nz/|n|)`
clamped to [-45, 45], both rounded to one decimal place. -/
def normalVectorToProjectionAngles (normal : Vec3) : ProjAngles :=
  let nx := normal.x
  let ny := normal.y
  let nz := normal.z
  let raoLao0 := jsAtan2 nx ny * (180 / Real.pi)
  let r := Real.sqrt (nx * nx + ny * ny + nz * nz)
  let cranialCaudal0 := Real.arcsin (nz / r) * (180 / Real.pi)
  let raoLao1 := if raoLao0 > 90 then raoLao0 - 180 else raoLao0
  let raoLao2 := if raoLao1 < -90 then raoLao1 + 180 else raoLao1
  let cranialCaudal1 := max (-45) (min 45 cranialCaudal0)
  ⟨round1 raoLao2, round1 cranialCaudal1⟩

/-- The one-decimal rounding moves a value by at most 1/20. -/
lemma round1_err (x : ℝ) : |round1 x - x| ≤ 1 / 20 := by
  have h1 := Int.floor_le (x * 10 + 1 / 2)
  have h2 := Int.sub_one_lt_floor (x * 10 + 1 / 2)
  rw [round1, jsRound, abs_le]
  constructor <;> [linarith; linarith]

/-- Exact evaluation of the round trip: for angles strictly inside the valid
ranges, `normalVectorToProjectionAngles (calculateViewingDirection rao cr)`
is `(round1 (-rao), round1 cr)` — the RAO/LAO sign comes back flipped. -/
lemma roundtrip_angles (rao cr : ℝ)
    (h1 : -90 < rao) (h2 : rao < 90) (h3 : -45 < cr) (h4 : cr < 45) :
    normalVectorToProjectionAngles (calculateViewingDirection rao cr)
      = ⟨round1 (-rao), round1 cr⟩ := by
  have hπ := Real.pi_pos
  simp only [normalVectorToProjectionAngles, calculateViewingDirection, degToRad]
  set a := rao * Real.pi / 180 with ha_def
  set b := cr * Real.pi / 180 with hb_def
  have ha1 : -(Real.pi / 2) < a := by
    have h := (div_lt_div_iff_of_pos_right (show (0:ℝ) < 180 by norm_num)).mpr
      (mul_lt_mul_of_pos_right h1 hπ)
    rw [ha_def]; linarith [h]
  have ha2 : a < Real.pi / 2 := by
    have h := (div_lt_div_iff_of_pos_right (show (0:ℝ) < 180 by norm_num)).mpr
      (mul_lt_mul_of_pos_right h2 hπ)
    rw [ha_def]; linarith [h]
  have hb1 : -(Real.pi / 2) < b := by
    have h := (div_lt_div_iff_of_pos_right (show (0:ℝ) < 180 by norm_num)).mpr
      (mul_lt_mul_of_pos_right h3 hπ)
    rw [hb_def]; linarith [h]
  have hb2 : b < Real.pi / 2 := by
    have h := (div_lt_div_iff_of_pos_right (show (0:ℝ) < 180 by norm_num)).mpr
      (mul_lt_mul_of_pos_right h4 hπ)
    rw [hb_def]; linarith [h]
  have hcosa : 0 < Real.cos a := Real.cos_pos_of_mem_Ioo ⟨ha1, ha2⟩
  have hcosb : 0 < Real.cos b := Real.cos_pos_of_mem_Ioo ⟨hb1, hb2⟩
  have e1 : jsAtan2 (-Real.sin a * Real.cos b) (Real.cos a * Real.cos b) = -a := by
    have harg : -Real.sin a * Real.cos b / (Real.cos a * Real.cos b)
        = Real.tan (-a) := by
      rw [Real.tan_neg, Real.tan_eq_sin_div_cos]
      field_simp
      ring
    simp only [jsAtan2]
    rw [if_pos (mul_pos hcosa hcosb), harg,
      Real.arctan_tan (by linarith) (by linarith)]
  have hone : -Real.sin a * Real.cos b * (-Real.sin a * Real.cos b) +
      Real.cos a * Real.cos b * (Real.cos a * Real.cos b) +
      Real.sin b * Real.sin b = 1 := by
    linear_combination (Real.cos b) ^ 2 * Real.sin_sq_add_cos_sq a +
      Real.sin_sq_add_cos_sq b
  have e4 : -a * (180 / Real.pi) = -rao := by
    rw [ha_def]; field_simp; ring
  have e5 : b * (180 / Real.pi) = cr := by
    rw [hb_def]; field_simp
  rw [e1, hone, Real.sqrt_one, div_one,
    Real.arcsin_sin (by linarith) (by linarith), e4, e5,
    if_neg (by linarith : ¬(-rao > 90)), if_neg (by linarith : ¬(-rao < -90)),
    min_eq_right h4.le, max_eq_right (by linarith : (-45:ℝ) ≤ cr)]

/-- C2 (amended): the round trip through
`normalVectorToProjectionAngles ∘ calculateViewingDirection` returns angles
within 0.5 degrees of `(-rao, cr)` — the RAO/LAO sign is flipped — for
`rao ∈ (-90, 90)`, `cr ∈ (-45, 45)`. -/
theorem claim_C2_roundtrip_sign_flip (rao cr : ℝ)
    (h1 : -90 < rao) (h2 : rao < 90) (h3 : -45 < cr) (h4 : cr < 45) :
    |(normalVectorToProjectionAngles (calculateViewingDirection rao cr)).raoLao
        - (-rao)| ≤ 0.5 ∧
    |(normalVectorToProjectionAngles (calculateViewingDirection rao cr)).cranialCaudal
        - cr| ≤ 0.5 := by
  rw [roundtrip_angles rao cr h1 h2 h3 h4]
  exact ⟨le_trans (round1_err _) (by norm_num),
         le_trans (round1_err _) (by norm_num)⟩

/-- Witness for the amended C2 at `rao = 30`, `cr = 10`. -/
theorem claim_C2_witness :
    |(normalVectorToProjectionAngles (calculateViewingDirection 30 10)).raoLao
        - (-30)| ≤ 0.5 ∧
    |(normalVectorToProjectionAngles (calculateViewingDirection 30 10)).cranialCaudal
        - 10| ≤ 0.5 :=
  claim_C2_roundtrip_sign_flip 30 10 (by norm_num) (by norm_num)
    (by norm_num) (by norm_num)

/-- Counterexample to C2 as stated: at `rao = 45`, `cr = 0` the recovered
RAO/LAO angle is -45, which is 90 degrees away from the original 45. -/
theorem claim_C2_counterexample :
    0.5 < |(normalVectorToProjectionAngles
      (calculateViewingDirection 45 0)).raoLao - 45| := by
  rw [roundtrip_angles 45 0 (by norm_num) (by norm_num) (by norm_num) (by norm_num)]
  have hf : ⌊(-45:ℝ) * 10 + 1 / 2⌋ = (-450:ℤ) := by
    rw [Int.floor_eq_iff]
    constructor <;> norm_num
  have : round1 (-45) = -45 := by
    rw [round1, jsRound, hf]
    norm_num
  rw [this]
  norm_num

/-- Final result `{raoLao, cranialCaudal, score}` of the optimizers.  The
score field models a JS number that may be the `-Infinity` sentinel, hence
`WithBot ℝ`. -/
structure OptimalAngles where
  raoLao : ℝ
  cranialCaudal : ℝ
  score : WithBot ℝ

/-- One iteration of the best-candidate tracking shared by both grid-search
loops: `if (score > bestScore) { bestScore = score; bestAngles = cand }`,
with `bestScore` initialized to the float `-Infinity` (here `⊥`). -/
def gridStep (score : ℤ → ℤ → ℝ) (st : (ℝ × ℝ) × WithBot ℝ) (cand : ℤ × ℤ) :
    (ℝ × ℝ) × WithBot ℝ :=
  let s := score cand.1 cand.2
  if st.2 < (s : WithBot ℝ) then (((cand.1 : ℝ), (cand.2 : ℝ)), (s : WithBot ℝ))
  else st

/-- The best angles tracked by a grid fold are either the initial pair or one
of the candidates of the list. -/
lemma foldl_gridStep_fst (score : ℤ → ℤ → ℝ) (l : List (ℤ × ℤ)) :
    ∀ st : (ℝ × ℝ) × WithBot ℝ,
      (l.foldl (gridStep score) st).1 = st.1 ∨
      ∃ c ∈ l, (l.foldl (gridStep score) st).1 = ((c.1 : ℝ), (c.2 : ℝ)) := by
  induction l with
  | nil => intro st; left; rfl
  | cons c t ih =>
    intro st
    rw [List.foldl_cons]
    rcases ih (gridStep score st c) with h0 | ⟨c', hc', h⟩
    · rw [h0]
      unfold gridStep
      by_cases hif : st.2 < ((score c.1 c.2 : ℝ) : WithBot ℝ)
      · right
        exact ⟨c, List.mem_cons_self c t, by rw [if_pos hif]⟩
      · left
        rw [if_neg hif]
    · right
      exact ⟨c', List.mem_cons_of_mem _ hc', h⟩

/-- Clamping `max lo (min hi z)` lands in `[lo, hi]`. -/
lemma clamp_mem {lo hi : ℝ} (z : ℝ) (h : lo ≤ hi) :
    lo ≤ max lo (min hi z) ∧ max lo (min hi z) ≤ hi :=
  ⟨le_max_left _ _, max_le h (min_le_left _ _)⟩

/-- `round1` does not overshoot an integer upper bound. -/
lemma round1_le {x : ℝ} {c : ℤ} (h : x ≤ c) : round1 x ≤ c := by
  rw [round1, jsRound, div_le_iff₀ (show (0:ℝ) < 10 by norm_num)]
  have hfl : (⌊x * 10 + 1 / 2⌋ : ℤ) < 10 * c + 1 :=
    Int.floor_lt.mpr (by push_cast; linarith)
  have : (⌊x * 10 + 1 / 2⌋ : ℤ) ≤ 10 * c := by omega
  calc ((⌊x * 10 + 1 / 2⌋ : ℤ) : ℝ) ≤ ((10 * c : ℤ) : ℝ) := by exact_mod_cast this
    _ = (c : ℝ) * 10 := by push_cast; ring

/-- `round1` does not undershoot an integer lower bound. -/
lemma le_round1 {x : ℝ} {c : ℤ} (h : (c : ℝ) ≤ x) : (c : ℝ) ≤ round1 x := by
  rw [round1, jsRound, le_div_iff₀ (show (0:ℝ) < 10 by norm_num)]
  have : (10 * c : ℤ) ≤ ⌊x * 10 + 1 / 2⌋ := Int.le_floor.mpr (by push_cast; linarith)
  calc (c : ℝ) * 10 = ((10 * c : ℤ) : ℝ) := by push_cast; ring
    _ ≤ _ := by exact_mod_cast this

namespace Part1

/-- The `weights = [1.2, 1.0, 1.0]` array of `calculateViewingScore`. -/
def viewingWeights : List ℝ := [1.2, 1, 1]

/-- `calculateViewingScore` (unnamed part_001 lines 141-173): sum over the
vessels of `sqrt(1 - |v·view|²) * weight`, the viewing direction being the
inlined `calculateViewingDirection` formula.  (The source indexes a 3-entry
weight array; pairing by `zip` agrees with it on the length-3 inputs the
only caller passes.) -/
def calculateViewingScore (vesselDirections : List Vec3)
    (raoLao cranialCaudal : ℝ) : ℝ :=
  let viewingDirection := calculateViewingDirection raoLao cranialCaudal
  ((vesselDirections.zip viewingWeights).map (fun p =>
    let dotProduct := dot3 p.1 viewingDirection
    let foreshorteningFactor := |dotProduct|
    Real.sqrt (1 - foreshorteningFactor * foreshorteningFactor) * p.2)).sum

/-- The 1-degree grid `raoLao ∈ [-90, 90]`, `cranialCaudal ∈ [-45, 45]`
traversed by `calculateOptimalViewingAngles` (outer loop raoLao ascending,
inner loop cranialCaudal ascending). -/
def gridCandidates : List (ℤ × ℤ) :=
  (List.range 181).flatMap (fun i =>
    (List.range 91).map (fun j => ((i : ℤ) - 90, (j : ℤ) - 45)))

/-- The grid-search phase of `calculateOptimalViewingAngles` (part_001). -/
def gridSearch (vesselDirections : List Vec3) : (ℝ × ℝ) × WithBot ℝ :=
  gridCandidates.foldl
    (gridStep (fun r c => calculateViewingScore vesselDirections (r : ℝ) (c : ℝ)))
    ((0, 0), ⊥)

/-- The iteration of `refineAngles` (unnamed part_001 lines 178-214):
numerical gradient, one clamped step, accept only improvements beyond the
tolerance, at most `n` more iterations. -/
def refineGo (vesselDirections : List Vec3) (stepSize tolerance : ℝ) :
    ℕ → ℝ × ℝ → ℝ → ℝ × ℝ
  | 0, currentAngles, _ => currentAngles
  | n + 1, currentAngles, currentScore =>
    let gradRao := (calculateViewingScore vesselDirections
        (currentAngles.1 + stepSize) currentAngles.2 -
      calculateViewingScore vesselDirections
        (currentAngles.1 - stepSize) currentAngles.2) / (2 * stepSize)
    let gradCranial := (calculateViewingScore vesselDirections
        currentAngles.1 (currentAngles.2 + stepSize) -
      calculateViewingScore vesselDirections
        currentAngles.1 (currentAngles.2 - stepSize)) / (2 * stepSize)
    let newRaoLao := max (-90) (min 90 (currentAngles.1 + stepSize * gradRao))
    let newCranialCaudal := max (-45) (min 45 (currentAngles.2 + stepSize * gradCranial))
    let newScore := calculateViewingScore vesselDirections newRaoLao newCranialCaudal
    if currentScore + tolerance < newScore then
      refineGo vesselDirections stepSize tolerance n (newRaoLao, newCranialCaudal) newScore
    else currentAngles

/-- `refineAngles` (part_001): gradient refinement, `maxIterations = 50`,
`tolerance = 0.001`; the `searchRadius` argument is unused in the source. -/
def refineAngles (vesselDirections : List Vec3) (initialAngles : ℝ × ℝ)
    (_searchRadius stepSize : ℝ) : ℝ × ℝ :=
  refineGo vesselDirections stepSize 0.001 50 initialAngles
    (calculateViewingScore vesselDirections initialAngles.1 initialAngles.2)

/-- `calculateOptimalViewingAngles` (unnamed part_001 lines 104-132):
requires exactly 3 vessel directions, 1-degree grid search, gradient
refinement with step 0.1, rounds the refined angles to one decimal and
reports the (unrefined) grid best score. -/
def calculateOptimalViewingAngles (vesselDirections : List Vec3) :
    Except Err OptimalAngles :=
  if vesselDirections.length ≠ 3 then .error .invalidVesselCount
  else
    let best := gridSearch vesselDirections
    let refinedAngles := refineAngles vesselDirections best.1 1.0 0.1
    .ok ⟨round1 refinedAngles.1, round1 refinedAngles.2, best.2⟩

/-- The refinement loop keeps the angles inside the clamped bounds. -/
lemma refineGo_mem (vesselDirections : List Vec3) (stepSize tolerance : ℝ) :
    ∀ (n : ℕ) (ang : ℝ × ℝ) (sc : ℝ),
      -90 ≤ ang.1 → ang.1 ≤ 90 → -45 ≤ ang.2 → ang.2 ≤ 45 →
      -90 ≤ (refineGo vesselDirections stepSize tolerance n ang sc).1 ∧
      (refineGo vesselDirections stepSize tolerance n ang sc).1 ≤ 90 ∧
      -45 ≤ (refineGo vesselDirections stepSize tolerance n ang sc).2 ∧
      (refineGo vesselDirections stepSize tolerance n ang sc).2 ≤ 45 := by
  intro n
  induction n with
  | zero => intro ang sc h1 h2 h3 h4; exact ⟨h1, h2, h3, h4⟩
  | succ n ih =>
    intro ang sc h1 h2 h3 h4
    simp only [refineGo]
    split
    · apply ih
      · exact (clamp_mem _ (by norm_num)).1
      · exact (clamp_mem _ (by norm_num)).2
      · exact (clamp_mem _ (by norm_num)).1
      · exact (clamp_mem _ (by norm_num)).2
    · exact ⟨h1, h2, h3, h4⟩

/-- `refineAngles` keeps in-bounds initial angles in bounds. -/
lemma refineAngles_mem (vesselDirections : List Vec3) (initialAngles : ℝ × ℝ)
    (sr ss : ℝ) (h1 : -90 ≤ initialAngles.1) (h2 : initialAngles.1 ≤ 90)
    (h3 : -45 ≤ initialAngles.2) (h4 : initialAngles.2 ≤ 45) :
    -90 ≤ (refineAngles vesselDirections initialAngles sr ss).1 ∧
    (refineAngles vesselDirections initialAngles sr ss).1 ≤ 90 ∧
    -45 ≤ (refineAngles vesselDirections initialAngles sr ss).2 ∧
    (refineAngles vesselDirections initialAngles sr ss).2 ≤ 45 := by
  unfold refineAngles
  exact refineGo_mem vesselDirections ss 0.001 50 initialAngles _ h1 h2 h3 h4

/-- Every grid candidate lies in the search bounds. -/
lemma mem_gridCandidates {c : ℤ × ℤ} (h : c ∈ gridCandidates) :
    -90 ≤ c.1 ∧ c.1 ≤ 90 ∧ -45 ≤ c.2 ∧ c.2 ≤ 45 := by
  simp only [gridCandidates, List.mem_flatMap, List.mem_map, List.mem_range] at h
  obtain ⟨i, hi, j, hj, he⟩ := h
  simp only [List.bind_eq_flatMap, List.mem_flatMap, List.mem_range,
    List.mem_pure] at hj
  obtain ⟨a, ha, rfl⟩ := hj
  have h1 : (i : ℤ) - 90 = c.1 := congrArg Prod.fst he
  have h2 : (a : ℤ) - 45 = c.2 := congrArg Prod.snd he
  omega

/-- The grid phase yields in-bounds angles. -/
lemma gridSearch_mem (vesselDirections : List Vec3) :
    -90 ≤ (gridSearch vesselDirections).1.1 ∧ (gridSearch vesselDirections).1.1 ≤ 90 ∧
    -45 ≤ (gridSearch vesselDirections).1.2 ∧ (gridSearch vesselDirections).1.2 ≤ 45 := by
  rcases foldl_gridStep_fst
      (fun r c => calculateViewingScore vesselDirections (r : ℝ) (c : ℝ))
      gridCandidates ((0, 0), ⊥) with h0 | ⟨c, hc, heq⟩
  · rw [gridSearch, h0]
    norm_num
  · rw [gridSearch, heq]
    obtain ⟨k1, k2, k3, k4⟩ := mem_gridCandidates hc
    refine ⟨?_, ?_, ?_, ?_⟩
    · show (-90 : ℝ) ≤ (c.1 : ℝ)
      exact_mod_cast k1
    · show (c.1 : ℝ) ≤ 90
      exact_mod_cast k2
    · show (-45 : ℝ) ≤ (c.2 : ℝ)
      exact_mod_cast k3
    · show (c.2 : ℝ) ≤ 45
      exact_mod_cast k4

end Part1

/-- C4: with exactly 3 vessel directions, the part_001 optimizer succeeds and
returns angles clamped to `raoLao ∈ [-90, 90]`, `cranialCaudal ∈ [-45, 45]`,
both rounded to one decimal place (i.e. integer multiples of 1/10). -/
theorem claim_C4_optimizer_bounds (dirs : List Vec3) (h : dirs.length = 3) :
    ∃ r, Part1.calculateOptimalViewingAngles dirs = .ok r ∧
      -90 ≤ r.raoLao ∧ r.raoLao ≤ 90 ∧
      -45 ≤ r.cranialCaudal ∧ r.cranialCaudal ≤ 45 ∧
      (∃ k : ℤ, r.raoLao = (k : ℝ) / 10) ∧
      (∃ k : ℤ, r.cranialCaudal = (k : ℝ) / 10) := by
  obtain ⟨g1, g2, g3, g4⟩ := Part1.gridSearch_mem dirs
  obtain ⟨r1, r2, r3, r4⟩ :=
    Part1.refineAngles_mem dirs (Part1.gridSearch dirs).1 1.0 0.1 g1 g2 g3 g4
  refine ⟨⟨round1 (Part1.refineAngles dirs (Part1.gridSearch dirs).1 1.0 0.1).1,
           round1 (Part1.refineAngles dirs (Part1.gridSearch dirs).1 1.0 0.1).2,
           (Part1.gridSearch dirs).2⟩, ?_, ?_, ?_, ?_, ?_, ⟨_, rfl⟩, ⟨_, rfl⟩⟩
  · simp only [Part1.calculateOptimalViewingAngles, h]
    rw [if_neg (by norm_num)]
  · have := le_round1 (c := -90)
      (x := (Part1.refineAngles dirs (Part1.gridSearch dirs).1 1.0 0.1).1)
      (by exact_mod_cast r1)
    exact_mod_cast this
  · have := round1_le (c := 90)
      (x := (Part1.refineAngles dirs (Part1.gridSearch dirs).1 1.0 0.1).1)
      (by exact_mod_cast r2)
    exact_mod_cast this
  · have := le_round1 (c := -45)
      (x := (Part1.refineAngles dirs (Part1.gridSearch dirs).1 1.0 0.1).2)
      (by exact_mod_cast r3)
    exact_mod_cast this
  · have := round1_le (c := 45)
      (x := (Part1.refineAngles dirs (Part1.gridSearch dirs).1 1.0 0.1).2)
      (by exact_mod_cast r4)
    exact_mod_cast this

/-- Witness for C4 at a concrete 3-vessel input. -/
theorem claim_C4_witness :
    ∃ r, Part1.calculateOptimalViewingAngles [⟨1, 0, 0⟩, ⟨0, 1, 0⟩, ⟨0, 0, 1⟩]
        = .ok r ∧
      -90 ≤ r.raoLao ∧ r.raoLao ≤ 90 ∧
      -45 ≤ r.cranialCaudal ∧ r.cranialCaudal ≤ 45 ∧
      (∃ k : ℤ, r.raoLao = (k : ℝ) / 10) ∧
      (∃ k : ℤ, r.cranialCaudal = (k : ℝ) / 10) :=
  claim_C4_optimizer_bounds [⟨1, 0, 0⟩, ⟨0, 1, 0⟩, ⟨0, 0, 1⟩] rfl

namespace Part0

/-- `calculateForeshorteningScore` (unnamed part_000 lines 362-423): normalizes
the viewing direction and each vessel, clamps each dot product, and sums
`sqrt(1 - clampedDot²) * weight` with weight 1.5 for the first vessel
(index 0) and 1.0 otherwise; zero-length vessels contribute nothing. -/
def calculateForeshorteningScore (vesselDirections : List Vec3)
    (raoLao cranialCaudal : ℝ) : ℝ :=
  let viewingDirection := calculateViewingDirection raoLao cranialCaudal
  let viewLength := Real.sqrt (viewingDirection.x * viewingDirection.x +
    viewingDirection.y * viewingDirection.y +
    viewingDirection.z * viewingDirection.z)
  if viewLength = 0 then 0
  else
    let normalizedView : Vec3 := ⟨viewingDirection.x / viewLength,
      viewingDirection.y / viewLength, viewingDirection.z / viewLength⟩
    (vesselDirections.enum.map (fun p =>
      let vesselDir := p.2
      let vesselLength := Real.sqrt (vesselDir.x * vesselDir.x +
        vesselDir.y * vesselDir.y + vesselDir.z * vesselDir.z)
      if vesselLength = 0 then 0
      else
        let normalizedVessel : Vec3 := ⟨vesselDir.x / vesselLength,
          vesselDir.y / vesselLength, vesselDir.z / vesselLength⟩
        let dotProduct := dot3 normalizedVessel normalizedView
        let clampedDot := max (-1) (min 1 dotProduct)
        let projectedLengthFactor := Real.sqrt (1 - clampedDot * clampedDot)
        let weight : ℝ := if p.1 = 0 then 1.5 else 1.0
        projectedLengthFactor * weight)).sum

/-- The 2-degree grid of the part_000 optimizer, in traversal order. -/
def gridCandidates : List (ℤ × ℤ) :=
  (List.range 91).flatMap (fun i =>
    (List.range 46).map (fun j => (2 * (i : ℤ) - 90, 2 * (j : ℤ) - 45)))

/-- The grid-search phase of `calculateOptimalViewingAngles` (part_000). -/
def gridSearch (vesselDirections : List Vec3) : (ℝ × ℝ) × WithBot ℝ :=
  gridCandidates.foldl
    (gridStep (fun r c =>
      calculateForeshorteningScore vesselDirections (r : ℝ) (c : ℝ)))
    ((0, 0), ⊥)

/-- One iteration of `refineOptimalAngles` (unnamed part_000 lines 428-467):
the four coordinate steps are tried in order and the first candidate that
beats the current score beyond the tolerance is taken (`break`); both
coordinates are clamped on every trial. -/
def refineGo (vesselDirections : List Vec3) (stepSize tolerance : ℝ) :
    ℕ → ℝ × ℝ → ℝ → ℝ × ℝ
  | 0, currentAngles, _ => currentAngles
  | n + 1, currentAngles, currentScore =>
    let tryDir := fun (draoLao dcranialCaudal : ℝ) =>
      (max (-90) (min 90 (currentAngles.1 + draoLao)),
       max (-45) (min 45 (currentAngles.2 + dcranialCaudal)))
    let c1 := tryDir stepSize 0
    let s1 := calculateForeshorteningScore vesselDirections c1.1 c1.2
    if currentScore + tolerance < s1 then
      refineGo vesselDirections stepSize tolerance n c1 s1
    else
      let c2 := tryDir (-stepSize) 0
      let s2 := calculateForeshorteningScore vesselDirections c2.1 c2.2
      if currentScore + tolerance < s2 then
        refineGo vesselDirections stepSize tolerance n c2 s2
      else
        let c3 := tryDir 0 stepSize
        let s3 := calculateForeshorteningScore vesselDirections c3.1 c3.2
        if currentScore + tolerance < s3 then
          refineGo vesselDirections stepSize tolerance n c3 s3
        else
          let c4 := tryDir 0 (-stepSize)
          let s4 := calculateForeshorteningScore vesselDirections c4.1 c4.2
          if currentScore + tolerance < s4 then
            refineGo vesselDirections stepSize tolerance n c4 s4
          else currentAngles

/-- `refineOptimalAngles` (part_000): hill climbing, `maxIterations = 20`,
`tolerance = 0.01`; the `searchRadius` argument is unused in the source. -/
def refineOptimalAngles (vesselDirections : List Vec3) (initialAngles : ℝ × ℝ)
    (_searchRadius stepSize : ℝ) : ℝ × ℝ :=
  refineGo vesselDirections stepSize 0.01 20 initialAngles
    (calculateForeshorteningScore vesselDirections initialAngles.1 initialAngles.2)

/-- `calculateOptimalViewingAngles` (unnamed part_000 lines 328-356):
requires exactly 3 vessel directions (main + 2 branches), 2-degree grid
search, hill-climbing refinement with step 0.5, rounds the refined angles
to one decimal and reports the grid best score. -/
def calculateOptimalViewingAngles (vesselDirections : List Vec3) :
    Except Err OptimalAngles :=
  if vesselDirections.length ≠ 3 then .error .invalidVesselCount
  else
    let best := gridSearch vesselDirections
    let refinedAngles := refineOptimalAngles vesselDirections best.1 2 0.5
    .ok ⟨round1 refinedAngles.1, round1 refinedAngles.2, best.2⟩

end Part0

/-- C5: both optimizer entry points raise `InvalidVesselCount` exactly when
the number of vessel directions differs from 3, and succeed on every
3-element input. -/
theorem claim_C5_vessel_count_contract (dirs : List Vec3) :
    (dirs.length ≠ 3 →
      Part0.calculateOptimalViewingAngles dirs = .error .invalidVesselCount ∧
      Part1.calculateOptimalViewingAngles dirs = .error .invalidVesselCount) ∧
    (dirs.length = 3 →
      (∃ r, Part0.calculateOptimalViewingAngles dirs = .ok r) ∧
      (∃ r, Part1.calculateOptimalViewingAngles dirs = .ok r)) := by
  constructor
  · intro h
    constructor
    · rw [Part0.calculateOptimalViewingAngles, if_pos h]
    · rw [Part1.calculateOptimalViewingAngles, if_pos h]
  · intro h
    constructor
    · exact ⟨_, by rw [Part0.calculateOptimalViewingAngles, if_neg (by simp [h])]⟩
    · exact ⟨_, by rw [Part1.calculateOptimalViewingAngles, if_neg (by simp [h])]⟩

/-- Witness for C5: the empty input errors and a concrete 3-element input
succeeds, for both implementations. -/
theorem claim_C5_witness :
    Part0.calculateOptimalViewingAngles [] = .error .invalidVesselCount ∧
    Part1.calculateOptimalViewingAngles [] = .error .invalidVesselCount ∧
    (∃ r, Part0.calculateOptimalViewingAngles [⟨1, 0, 0⟩, ⟨0, 1, 0⟩, ⟨0, 0, 1⟩]
      = .ok r) ∧
    (∃ r, Part1.calculateOptimalViewingAngles [⟨1, 0, 0⟩, ⟨0, 1, 0⟩, ⟨0, 0, 1⟩]
      = .ok r) :=
  ⟨((claim_C5_vessel_count_contract []).1 (by decide)).1,
   ((claim_C5_vessel_count_contract []).1 (by decide)).2,
   ((claim_C5_vessel_count_contract [⟨1, 0, 0⟩, ⟨0, 1, 0⟩, ⟨0, 0, 1⟩]).2 rfl).1,
   ((claim_C5_vessel_count_contract [⟨1, 0, 0⟩, ⟨0, 1, 0⟩, ⟨0, 0, 1⟩]).2 rfl).2⟩

/-- `imageCoordinatesTo3DDirection` (geometryCalculations.js lines 43-69):
normalizes both points to `[-1,1]²` (Y flipped), takes the normalized 2D
difference (erroring on coincident points) and maps it to world space by the
transposed rotation. -/
def imageCoordinatesTo3DDirection (x1 y1 x2 y2 imageWidth imageHeight : ℝ)
    (rotationMatrix : Mat3) : Except Err Vec3 :=
  let normX1 := 2 * x1 / imageWidth - 1
  let normY1 := 1 - 2 * y1 / imageHeight
  let normX2 := 2 * x2 / imageWidth - 1
  let normY2 := 1 - 2 * y2 / imageHeight
  let dx := normX2 - normX1
  let dy := normY2 - normY1
  let length2D := Real.sqrt (dx * dx + dy * dy)
  if length2D = 0 then .error .pointsIdentical
  else
    let dirX := dx / length2D
    let dirY := dy / length2D
    let imageDir : Vec3 := ⟨dirX, dirY, 0⟩
    let invRotation := transposeMatrix3x3 rotationMatrix
    .ok (multiplyMatrixVector invRotation imageDir)

/-- The inner `normalizeVector` arrow of `reconstruct3DVesselDirections`
(geometryCalculations.js lines 224-227): `length > 0 ? vec/length : [0,0,0]`
— note the silent coercion of zero-magnitude input to `[0, 0, 0]`. -/
def normalizeVector (vec : Vec3) : Vec3 :=
  let length := Real.sqrt (vec.x * vec.x + vec.y * vec.y + vec.z * vec.z)
  if 0 < length then ⟨vec.x / length, vec.y / length, vec.z / length⟩
  else ⟨0, 0, 0⟩

/-- A marked vessel `{start, end}` point pair (`end` is reserved in Lean, so
the fields are `startP` / `endP`). -/
structure Seg where
  startP : Pt
  endP : Pt

/-- The `points` record of a projection: one segment per vessel. -/
structure ProjPoints where
  vessel1 : Seg
  vessel2 : Seg

/-- One projection's input data for `reconstruct3DVesselDirections`. -/
structure Projection where
  points : ProjPoints
  raoLao : ℝ
  cranialCaudal : ℝ
  imageWidth : ℝ
  imageHeight : ℝ

/-- The `{vessel1, vessel2}` result of `reconstruct3DVesselDirections`. -/
structure ReconResult where
  vessel1 : Vec3
  vessel2 : Vec3

/-- `reconstruct3DVesselDirections` (geometryCalculations.js lines 176-233):
per-view directions via `imageCoordinatesTo3DDirection`, two-view averaging,
then `normalizeVector` on each average. -/
def reconstruct3DVesselDirections (projection1 projection2 : Projection) :
    Except Err ReconResult :=
  let rotation1 := projectionAnglesToRotationMatrix projection1.raoLao
    projection1.cranialCaudal
  let rotation2 := projectionAnglesToRotationMatrix projection2.raoLao
    projection2.cranialCaudal
  match imageCoordinatesTo3DDirection projection1.points.vessel1.startP.x
      projection1.points.vessel1.startP.y projection1.points.vessel1.endP.x
      projection1.points.vessel1.endP.y projection1.imageWidth
      projection1.imageHeight rotation1 with
  | .error e => .error e
  | .ok vessel1Dir1 =>
    match imageCoordinatesTo3DDirection projection2.points.vessel1.startP.x
        projection2.points.vessel1.startP.y projection2.points.vessel1.endP.x
        projection2.points.vessel1.endP.y projection2.imageWidth
        projection2.imageHeight rotation2 with
    | .error e => .error e
    | .ok vessel1Dir2 =>
      match imageCoordinatesTo3DDirection projection1.points.vessel2.startP.x
          projection1.points.vessel2.startP.y projection1.points.vessel2.endP.x
          projection1.points.vessel2.endP.y projection1.imageWidth
          projection1.imageHeight rotation1 with
      | .error e => .error e
      | .ok vessel2Dir1 =>
        match imageCoordinatesTo3DDirection projection2.points.vessel2.startP.x
            projection2.points.vessel2.startP.y projection2.points.vessel2.endP.x
            projection2.points.vessel2.endP.y projection2.imageWidth
            projection2.imageHeight rotation2 with
        | .error e => .error e
        | .ok vessel2Dir2 =>
          let vessel1Direction : Vec3 := ⟨(vessel1Dir1.x + vessel1Dir2.x) / 2,
            (vessel1Dir1.y + vessel1Dir2.y) / 2, (vessel1Dir1.z + vessel1Dir2.z) / 2⟩
          let vessel2Direction : Vec3 := ⟨(vessel2Dir1.x + vessel2Dir2.x) / 2,
            (vessel2Dir1.y + vessel2Dir2.y) / 2, (vessel2Dir1.z + vessel2Dir2.z) / 2⟩
          .ok ⟨normalizeVector vessel1Direction, normalizeVector vessel2Direction⟩

/-- `normalizeVector` maps the zero vector to itself (the silent coercion). -/
lemma normalizeVector_zero : normalizeVector ⟨0, 0, 0⟩ = ⟨0, 0, 0⟩ := by
  simp [normalizeVector]

/-- First projection of the C6 counterexample: AP view (0, 0), 4x4 image,
vessel 1 drawn left-to-right, vessel 2 drawn downward. -/
def proj1ex : Projection := ⟨⟨⟨⟨0, 0⟩, ⟨2, 0⟩⟩, ⟨⟨0, 0⟩, ⟨0, 2⟩⟩⟩, 0, 0, 4, 4⟩

/-- Second projection of the C6 counterexample: same AP view, vessel 1 drawn
right-to-left (so the two per-view directions cancel), vessel 2 as before. -/
def proj2ex : Projection := ⟨⟨⟨⟨2, 0⟩, ⟨0, 0⟩⟩, ⟨⟨0, 0⟩, ⟨0, 2⟩⟩⟩, 0, 0, 4, 4⟩

/-- The AP rotation matrix is the identity. -/
lemma rotation_AP : projectionAnglesToRotationMatrix 0 0
    = ⟨⟨1, 0, 0⟩, ⟨0, 1, 0⟩, ⟨0, 0, 1⟩⟩ := by
  ext <;> simp [projectionAnglesToRotationMatrix, degToRad]

/-- Per-view direction of vessel 1 in `proj1ex`. -/
lemma imgDir_right : imageCoordinatesTo3DDirection 0 0 2 0 4 4
    (projectionAnglesToRotationMatrix 0 0) = .ok ⟨1, 0, 0⟩ := by
  rw [rotation_AP]
  norm_num [imageCoordinatesTo3DDirection, transposeMatrix3x3,
    multiplyMatrixVector, Real.sqrt_one]

/-- Per-view direction of vessel 1 in `proj2ex`. -/
lemma imgDir_left : imageCoordinatesTo3DDirection 2 0 0 0 4 4
    (projectionAnglesToRotationMatrix 0 0) = .ok ⟨-1, 0, 0⟩ := by
  rw [rotation_AP]
  norm_num [imageCoordinatesTo3DDirection, transposeMatrix3x3,
    multiplyMatrixVector, Real.sqrt_one]

/-- Per-view direction of vessel 2 in both example projections. -/
lemma imgDir_down : imageCoordinatesTo3DDirection 0 0 0 2 4 4
    (projectionAnglesToRotationMatrix 0 0) = .ok ⟨0, -1, 0⟩ := by
  rw [rotation_AP]
  norm_num [imageCoordinatesTo3DDirection, transposeMatrix3x3,
    multiplyMatrixVector, Real.sqrt_one]

/-- C6 (amended): when all four per-view direction computations succeed and a
vessel's averaged two-view direction is the zero vector, the operation does
not raise an error — it silently returns `[0, 0, 0]` for that vessel. -/
theorem claim_C6_zero_average_coerced (p1 p2 : Projection) (d11 d12 d21 d22 : Vec3)
    (h11 : imageCoordinatesTo3DDirection p1.points.vessel1.startP.x
      p1.points.vessel1.startP.y p1.points.vessel1.endP.x p1.points.vessel1.endP.y
      p1.imageWidth p1.imageHeight
      (projectionAnglesToRotationMatrix p1.raoLao p1.cranialCaudal) = .ok d11)
    (h12 : imageCoordinatesTo3DDirection p2.points.vessel1.startP.x
      p2.points.vessel1.startP.y p2.points.vessel1.endP.x p2.points.vessel1.endP.y
      p2.imageWidth p2.imageHeight
      (projectionAnglesToRotationMatrix p2.raoLao p2.cranialCaudal) = .ok d12)
    (h21 : imageCoordinatesTo3DDirection p1.points.vessel2.startP.x
      p1.points.vessel2.startP.y p1.points.vessel2.endP.x p1.points.vessel2.endP.y
      p1.imageWidth p1.imageHeight
      (projectionAnglesToRotationMatrix p1.raoLao p1.cranialCaudal) = .ok d21)
    (h22 : imageCoordinatesTo3DDirection p2.points.vessel2.startP.x
      p2.points.vessel2.startP.y p2.points.vessel2.endP.x p2.points.vessel2.endP.y
      p2.imageWidth p2.imageHeight
      (projectionAnglesToRotationMatrix p2.raoLao p2.cranialCaudal) = .ok d22) :
    ∃ r, reconstruct3DVesselDirections p1 p2 = .ok r ∧
      ((⟨(d11.x + d12.x) / 2, (d11.y + d12.y) / 2, (d11.z + d12.z) / 2⟩ : Vec3)
        = ⟨0, 0, 0⟩ → r.vessel1 = ⟨0, 0, 0⟩) ∧
      ((⟨(d21.x + d22.x) / 2, (d21.y + d22.y) / 2, (d21.z + d22.z) / 2⟩ : Vec3)
        = ⟨0, 0, 0⟩ → r.vessel2 = ⟨0, 0, 0⟩) := by
  refine ⟨⟨normalizeVector ⟨(d11.x + d12.x) / 2, (d11.y + d12.y) / 2,
            (d11.z + d12.z) / 2⟩,
           normalizeVector ⟨(d21.x + d22.x) / 2, (d21.y + d22.y) / 2,
            (d21.z + d22.z) / 2⟩⟩, ?_, ?_, ?_⟩
  · rw [reconstruct3DVesselDirections]
    rw [h11, h12, h21, h22]
  · intro hz
    show normalizeVector _ = _
    rw [hz, normalizeVector_zero]
  · intro hz
    show normalizeVector _ = _
    rw [hz, normalizeVector_zero]

/-- Witness for the amended C6 at the concrete example projections. -/
theorem claim_C6_witness :
    ∃ r, reconstruct3DVesselDirections proj1ex proj2ex = .ok r ∧
      ((⟨((1:ℝ) + -1) / 2, ((0:ℝ) + 0) / 2, ((0:ℝ) + 0) / 2⟩ : Vec3)
        = ⟨0, 0, 0⟩ → r.vessel1 = ⟨0, 0, 0⟩) ∧
      ((⟨((0:ℝ) + 0) / 2, ((-1:ℝ) + -1) / 2, ((0:ℝ) + 0) / 2⟩ : Vec3)
        = ⟨0, 0, 0⟩ → r.vessel2 = ⟨0, 0, 0⟩) :=
  claim_C6_zero_average_coerced proj1ex proj2ex ⟨1, 0, 0⟩ ⟨-1, 0, 0⟩
    ⟨0, -1, 0⟩ ⟨0, -1, 0⟩ imgDir_right imgDir_left imgDir_down imgDir_down

/-- Counterexample to C6 as stated: at the example projections vessel 1's
averaged direction is the zero vector, yet the operation succeeds and returns
`[0, 0, 0]` instead of raising an error. -/
theorem claim_C6_counterexample :
    reconstruct3DVesselDirections proj1ex proj2ex = .ok ⟨⟨0, 0, 0⟩, ⟨0, -1, 0⟩⟩ := by
  rw [reconstruct3DVesselDirections]
  rw [show proj1ex.points.vessel1.startP.x = 0 from rfl]
  norm_num [proj1ex, proj2ex]
  rw [imgDir_right, imgDir_left, imgDir_down]
  norm_num [normalizeVector, Real.sqrt_one]

/-- `ImageData`: RGBA canvas data — width, height and the flat byte array
(bytes modelled as reals). -/
structure ImageDataT where
  width : ℕ
  height : ℕ
  data : List ℝ

/-- A centerline sample `{x, y, intensity}`. -/
structure CPoint where
  x : ℝ
  y : ℝ
  intensity : ℝ
  deriving Inhabited

/-- `createIntensityMap` (unnamed part_000 lines 50-61): grayscale with luma
weights 0.299/0.587/0.114, inverted so vessels are bright; a `Float32Array`
of `width*height` entries, modelled as a function on pixel indices
(out-of-range reads on either side give 0, as for the typed array). -/
def createIntensityMap (data : List ℝ) (width height : ℕ) : ℕ → ℝ :=
  fun pixelIndex =>
    if pixelIndex < width * height then
      255 - (0.299 * data.getD (4 * pixelIndex) 0 +
             0.587 * data.getD (4 * pixelIndex + 1) 0 +
             0.114 * data.getD (4 * pixelIndex + 2) 0)
    else 0

/-- The offsets `-radius, ..., radius` of the neighborhood loops. -/
def offsetRange (radius : ℕ) : List ℤ :=
  (List.range (2 * radius + 1)).map (fun i => (i : ℤ) - radius)

/-- `findLocalVesselCenter` (unnamed part_000 lines 122-160):
intensity-weighted centroid in a circular neighborhood with Gaussian-like
falloff `exp(-d²/r²)`. -/
def findLocalVesselCenter (intensityMap : ℕ → ℝ) (width height : ℕ)
    (x y : ℝ) (radius : ℕ) : Pt :=
  let centerX : ℤ := ⌊x + 1 / 2⌋
  let centerY : ℤ := ⌊y + 1 / 2⌋
  let acc := (offsetRange radius).foldl (fun (acc : ℝ × ℝ × ℝ) (dy : ℤ) =>
    (offsetRange radius).foldl (fun (acc : ℝ × ℝ × ℝ) (dx : ℤ) =>
      let distance := Real.sqrt ((dx : ℝ) * dx + (dy : ℝ) * dy)
      if (radius : ℝ) < distance then acc
      else
        let sampleX := centerX + dx
        let sampleY := centerY + dy
        if sampleX < 0 ∨ (width : ℤ) ≤ sampleX ∨
            sampleY < 0 ∨ (height : ℤ) ≤ sampleY then acc
        else
          let intensity := intensityMap (sampleY * width + sampleX).toNat
          let weight := intensity *
            Real.exp (-(distance * distance) / ((radius : ℝ) * radius))
          (acc.1 + (sampleX : ℝ) * weight, acc.2.1 + (sampleY : ℝ) * weight,
           acc.2.2 + weight)) acc) (0, 0, 0)
  if acc.2.2 = 0 then ⟨x, y⟩
  else ⟨acc.1 / acc.2.2, acc.2.1 / acc.2.2⟩

/-- `getInterpolatedIntensity` (unnamed part_000 lines 165-188): bilinear
interpolation with a bounds guard. -/
def getInterpolatedIntensity (intensityMap : ℕ → ℝ) (width height : ℕ)
    (x y : ℝ) : ℝ :=
  let x1 : ℤ := ⌊x⌋
  let y1 : ℤ := ⌊y⌋
  let x2 : ℤ := min (x1 + 1) ((width : ℤ) - 1)
  let y2 : ℤ := min (y1 + 1) ((height : ℤ) - 1)
  if x1 < 0 ∨ y1 < 0 ∨ (width : ℤ) ≤ x2 ∨ (height : ℤ) ≤ y2 then 0
  else
    let fx := x - x1
    let fy := y - y1
    let i11 := intensityMap (y1 * width + x1).toNat
    let i21 := intensityMap (y1 * width + x2).toNat
    let i12 := intensityMap (y2 * width + x1).toNat
    let i22 := intensityMap (y2 * width + x2).toNat
    let i1 := i11 * (1 - fx) + i21 * fx
    let i2 := i12 * (1 - fx) + i22 * fx
    i1 * (1 - fy) + i2 * fy

/-- `traceCenterlineBetweenPoints` (unnamed part_000 lines 66-117): steps of
size 1 from one seed toward the next, pushing the local vessel center at each
step and advancing by a 0.7/0.3 blend of seed interpolation and local center,
clamped 2px inside the image.  The identical-seed case returns the start
point alone (its missing `intensity` field reads as 0 downstream).
(When `steps = 0`, the JS `step/steps` is NaN, but the cursor it poisons is
never read again; the Lean `0/0 = 0` likewise leaves the output unchanged.) -/
def traceCenterlineBetweenPoints (intensityMap : ℕ → ℝ) (width height : ℕ)
    (startPoint endPoint : Pt) (maxLength : ℝ) : List CPoint :=
  let dx := endPoint.x - startPoint.x
  let dy := endPoint.y - startPoint.y
  let totalDistance := Real.sqrt (dx * dx + dy * dy)
  if totalDistance = 0 then [⟨startPoint.x, startPoint.y, 0⟩]
  else
    let actualLength := min totalDistance maxLength
    let steps := ⌊actualLength / 1.0⌋₊
    ((List.range (steps + 1)).foldl (fun (st : (ℝ × ℝ) × List CPoint) step =>
      let centerPoint := findLocalVesselCenter intensityMap width height
        st.1.1 st.1.2 5
      let pts := st.2 ++ [⟨centerPoint.x, centerPoint.y,
        getInterpolatedIntensity intensityMap width height
          centerPoint.x centerPoint.y⟩]
      let progress := (step : ℝ) / (steps : ℝ)
      let targetX := startPoint.x + dx * progress
      let targetY := startPoint.y + dy * progress
      let blendFactor := (0.7 : ℝ)
      let blendedX := blendFactor * targetX + (1 - blendFactor) * centerPoint.x
      let blendedY := blendFactor * targetY + (1 - blendFactor) * centerPoint.y
      let currentX := max 2 (min ((width : ℝ) - 3) blendedX)
      let currentY := max 2 (min ((height : ℝ) - 3) blendedY)
      ((currentX, currentY), pts)) ((startPoint.x, startPoint.y), [])).2

/-- `smoothCenterline` (unnamed part_000 lines 193-219): symmetric moving
average with window 3, shrinking at the edges; intensity copied through. -/
def smoothCenterline (points : List CPoint) (windowSize : ℕ := 3) : List CPoint :=
  if points.length < windowSize then points
  else
    let halfWindow := windowSize / 2
    (List.range points.length).map (fun i =>
      let s := i - halfWindow
      let e := min (points.length - 1) (i + halfWindow)
      let idxs := (List.range (e + 1 - s)).map (fun k => s + k)
      let sumX := (idxs.map (fun j => (points.getD j default).x)).sum
      let sumY := (idxs.map (fun j => (points.getD j default).y)).sum
      let count := (idxs.length : ℝ)
      ⟨sumX / count, sumY / count, (points.getD i default).intensity⟩)

/-- `extractVesselCenterline` (unnamed part_000 lines 13-44): errors when
fewer than 2 seed points are given, otherwise traces each consecutive seed
pair and smooths the concatenation. -/
def extractVesselCenterline (imageData : ImageDataT) (seedPoints : List Pt)
    (segmentLength : ℝ := 50) : Except Err (List CPoint) :=
  if seedPoints.length < 2 then .error .insufficientSeedPoints
  else
    let intensityMap := createIntensityMap imageData.data imageData.width
      imageData.height
    let centerlinePoints := (seedPoints.zip seedPoints.tail).foldl (fun acc sp =>
      acc ++ traceCenterlineBetweenPoints intensityMap imageData.width
        imageData.height sp.1 sp.2 segmentLength) []
    .ok (smoothCenterline centerlinePoints)

/-- C8: `extractVesselCenterline` raises `InsufficientSeedPoints` exactly when
there are fewer than 2 seed points, and succeeds (raising no error) on every
input with at least 2 seed points. -/
theorem claim_C8_seed_count_contract (imageData : ImageDataT)
    (seedPoints : List Pt) (segmentLength : ℝ) :
    (seedPoints.length < 2 →
      extractVesselCenterline imageData seedPoints segmentLength
        = .error .insufficientSeedPoints) ∧
    (2 ≤ seedPoints.length →
      ∃ r, extractVesselCenterline imageData seedPoints segmentLength = .ok r) := by
  constructor
  · intro h
    rw [extractVesselCenterline, if_pos h]
  · intro h
    exact ⟨_, by rw [extractVesselCenterline, if_neg (by omega)]⟩

/-- Witness for C8: the empty seed list errors and a 2-seed input succeeds. -/
theorem claim_C8_witness :
    extractVesselCenterline ⟨0, 0, []⟩ [] 50 = .error .insufficientSeedPoints ∧
    ∃ r, extractVesselCenterline ⟨0, 0, []⟩ [⟨0, 0⟩, ⟨1, 0⟩] 50 = .ok r :=
  ⟨(claim_C8_seed_count_contract ⟨0, 0, []⟩ [] 50).1 (by decide),
   (claim_C8_seed_count_contract ⟨0, 0, []⟩ [⟨0, 0⟩, ⟨1, 0⟩] 50).2 (by decide)⟩

/-- `distance` (geometryCalculations.js lines 635-639). -/
def distance (p1 p2 : Pt) : ℝ :=
  let dx := p1.x - p2.x
  let dy := p1.y - p2.y
  Real.sqrt (dx * dx + dy * dy)

/-- Distances are square roots, hence nonnegative. -/
lemma distance_nonneg (p1 p2 : Pt) : 0 ≤ distance p1 p2 := Real.sqrt_nonneg _

/-- `distanceToLineSegment` (geometryCalculations.js lines 562-584):
point-to-segment distance via the parametric projection clamped to [0,1]. -/
def distanceToLineSegment (point lineStart lineEnd : Pt) : ℝ :=
  let A := point.x - lineStart.x
  let B := point.y - lineStart.y
  let C := lineEnd.x - lineStart.x
  let D := lineEnd.y - lineStart.y
  let dotv := A * C + B * D
  let lenSq := C * C + D * D
  if lenSq = 0 then distance point lineStart
  else
    let param := max 0 (min 1 (dotv / lenSq))
    let closestPoint : Pt := ⟨lineStart.x + param * C, lineStart.y + param * D⟩
    distance point closestPoint

/-- `getMinDistanceToLine` (geometryCalculations.js lines 551-560): minimum
over consecutive segment pairs, starting from the float `Infinity` (`⊤`);
a single-point centerline keeps `Infinity`. -/
def getMinDistanceToLine (point : Pt) (centerline : List Pt) : WithTop ℝ :=
  (centerline.zip centerline.tail).foldl
    (fun m ab => min m ((distanceToLineSegment point ab.1 ab.2 : ℝ) : WithTop ℝ)) ⊤

/-- The float expression `1 / (1 + d)` for a distance that may be `Infinity`
(JS: `1 / Infinity = 0`). -/
def invOnePlus : WithTop ℝ → ℝ :=
  WithTop.recTopCoe 0 (fun x => 1 / (1 + x))

/-- `calculateVesselDirection` (geometryCalculations.js lines 586-602):
normalized start-to-end direction, `null` for short or degenerate input. -/
def calculateVesselDirection (centerline : List Pt) : Option Pt :=
  if centerline.length < 2 then none
  else
    let start := centerline.headD ⟨0, 0⟩
    let endP := centerline.getLastD ⟨0, 0⟩
    let dx := endP.x - start.x
    let dy := endP.y - start.y
    let length := Real.sqrt (dx * dx + dy * dy)
    if length = 0 then none
    else some ⟨dx / length, dy / length⟩

/-- `findLineIntersection` (geometryCalculations.js lines 604-621): two-line
intersection, `null` for near-parallel pairs. -/
def findLineIntersection (point1 dir1 point2 dir2 : Pt) : Option Pt :=
  let det := dir1.x * dir2.y - dir1.y * dir2.x
  if |det| < 1e-10 then none
  else
    let dx := point2.x - point1.x
    let dy := point2.y - point1.y
    let t := (dx * dir2.y - dy * dir2.x) / det
    some ⟨point1.x + t * dir1.x, point1.y + t * dir1.y⟩

/-- `calculateBifurcationScore` (geometryCalculations.js lines 623-633):
`1 / (1 + totalDistance + maxDistance)`. -/
def calculateBifurcationScore (point : Pt)
    (mainCenterline branch1Centerline branch2Centerline : List Pt) : ℝ :=
  let distToMain := getMinDistanceToLine point mainCenterline
  let distToBranch1 := getMinDistanceToLine point branch1Centerline
  let distToBranch2 := getMinDistanceToLine point branch2Centerline
  let totalDistance := distToMain + distToBranch1 + distToBranch2
  let maxDistance := max distToMain (max distToBranch1 distToBranch2)
  invOnePlus (totalDistance + maxDistance)

/-- `findClosestApproachPoint` (geometryCalculations.js lines 327-361): scans
every centerline point as bifurcation candidate (the `vessel` tag the source
attaches is never read), tracking `minTotalDistance` (starting at the float
`Infinity`) and the best balance-times-proximity score. -/
def findClosestApproachPoint (mainCenterline branch1Centerline branch2Centerline :
    List Pt) : Option (Pt × ℝ) :=
  let allPoints := mainCenterline ++ branch1Centerline ++ branch2Centerline
  let st := allPoints.foldl (fun (st : Option Pt × WithTop ℝ × ℝ) candidate =>
    let distToMain := getMinDistanceToLine candidate mainCenterline
    let distToBranch1 := getMinDistanceToLine candidate branch1Centerline
    let distToBranch2 := getMinDistanceToLine candidate branch2Centerline
    let totalDistance := distToMain + distToBranch1 + distToBranch2
    let maxDistance := max distToMain (max distToBranch1 distToBranch2)
    let balanceScore := invOnePlus maxDistance
    let proximityScore := invOnePlus totalDistance
    let score := balanceScore * proximityScore
    if totalDistance < st.2.1 ∧ st.2.2 < score then
      (some ⟨candidate.x, candidate.y⟩, totalDistance, score)
    else st) (none, ⊤, 0)
  match st.1 with
  | none => none
  | some p => some (p, st.2.2)

/-- `findVesselIntersection` (geometryCalculations.js lines 366-420): pairwise
direction-line intersections, centroid-averaged, scored by
`calculateBifurcationScore`. -/
def findVesselIntersection (mainCenterline branch1Centerline branch2Centerline :
    List Pt) : Option (Pt × ℝ) :=
  match calculateVesselDirection mainCenterline,
      calculateVesselDirection branch1Centerline,
      calculateVesselDirection branch2Centerline with
  | some mainDirection, some branch1Direction, some branch2Direction =>
    let int1 := findLineIntersection (mainCenterline.headD ⟨0, 0⟩) mainDirection
      (branch1Centerline.headD ⟨0, 0⟩) branch1Direction
    let int2 := findLineIntersection (mainCenterline.headD ⟨0, 0⟩) mainDirection
      (branch2Centerline.headD ⟨0, 0⟩) branch2Direction
    let int3 := findLineIntersection (branch1Centerline.headD ⟨0, 0⟩)
      branch1Direction (branch2Centerline.headD ⟨0, 0⟩) branch2Direction
    let intersections := int1.toList ++ int2.toList ++ int3.toList
    if intersections.length = 0 then none
    else
      let sumX := (intersections.map Pt.x).sum
      let sumY := (intersections.map Pt.y).sum
      let bifurcationPoint : Pt := ⟨sumX / intersections.length,
        sumY / intersections.length⟩
      some (bifurcationPoint, calculateBifurcationScore bifurcationPoint
        mainCenterline branch1Centerline branch2Centerline)
  | _, _, _ => none

/-- The best-centroid accumulation step of `findEndpointCentroid`
(geometryCalculations.js lines 435-460): score an endpoint combination by
`1 / (1 + maxDist + avgDist)` and keep it on strict improvement. -/
def centroidStep (st : Option Pt × ℝ) (combo : Pt × Pt × Pt) : Option Pt × ℝ :=
  let centroid : Pt := ⟨(combo.1.x + combo.2.1.x + combo.2.2.x) / 3,
    (combo.1.y + combo.2.1.y + combo.2.2.y) / 3⟩
  let dist1 := distance centroid combo.1
  let dist2 := distance centroid combo.2.1
  let dist3 := distance centroid combo.2.2
  let maxDist := max dist1 (max dist2 dist3)
  let avgDist := (dist1 + dist2 + dist3) / 3
  let score := 1 / (1 + maxDist + avgDist)
  if st.2 < score then (some centroid, score) else st

/-- `findEndpointCentroid` (geometryCalculations.js lines 425-463): try all
2x2x2 endpoint combinations.  (On an empty centerline the JS indexing yields
NaN distances, every score comparison is false and `null` is returned; the
all-`none` match arm models that.) -/
def findEndpointCentroid (mainCenterline branch1Centerline branch2Centerline :
    List Pt) : Option (Pt × ℝ) :=
  match mainCenterline.head?, mainCenterline.getLast?,
      branch1Centerline.head?, branch1Centerline.getLast?,
      branch2Centerline.head?, branch2Centerline.getLast? with
  | some m0, some m1, some a0, some a1, some b0, some b1 =>
    let combos := [m0, m1].flatMap (fun mainEnd =>
      [a0, a1].flatMap (fun branch1End =>
        [b0, b1].map (fun branch2End => (mainEnd, branch1End, branch2End))))
    let st := combos.foldl centroidStep (none, 0)
    match st.1 with
    | none => none
    | some p => some (p, st.2)
  | _, _, _, _, _, _ => none

/-- The three vessel roles of `findDirectionFromBifurcation`'s `vesselType`
argument (the source treats all three identically). -/
inductive VesselKind where
  | main
  | branch1
  | branch2

/-- The `reduce` callback of `findDirectionFromBifurcation`: keep the point
strictly more distant from the bifurcation point. -/
def furthestStep (bifurcationPoint : Pt) (furthest point : Pt) : Pt :=
  if distance furthest bifurcationPoint < distance point bifurcationPoint
  then point else furthest

/-- `findDirectionFromBifurcation` (geometryCalculations.js lines 512-545):
unit direction from the bifurcation point toward the centerline point most
distant from it (the `vesselType` branches of the source are identical). -/
def findDirectionFromBifurcation (bifurcationPoint : Pt) (centerline : List Pt)
    (_vesselType : VesselKind) : Option Pt :=
  if centerline.length < 2 then none
  else
    match centerline with
    | [] => none
    | first :: rest =>
      let targetPoint := rest.foldl (furthestStep bifurcationPoint) first
      let dx := targetPoint.x - bifurcationPoint.x
      let dy := targetPoint.y - bifurcationPoint.y
      let length := Real.sqrt (dx * dx + dy * dy)
      if length = 0 then none
      else some ⟨dx / length, dy / length⟩

/-- `generateSegmentFromBifurcation` (geometryCalculations.js lines 481-507):
the bifurcation point followed by `floor(segmentLength/2)` steps of 2px along
the outward direction; degenerate cases return the bifurcation point alone. -/
def generateSegmentFromBifurcation (bifurcationPoint : Pt) (centerline : List Pt)
    (segmentLength : ℝ) (vesselType : VesselKind) : List Pt :=
  if centerline.length < 2 then [bifurcationPoint]
  else
    match findDirectionFromBifurcation bifurcationPoint centerline vesselType with
    | none => [bifurcationPoint]
    | some direction =>
      let stepSize : ℝ := 2
      let numSteps := ⌊segmentLength / stepSize⌋₊
      bifurcationPoint :: (List.range numSteps).map (fun (i : ℕ) =>
        ⟨bifurcationPoint.x + direction.x * stepSize * ((i : ℝ) + 1),
         bifurcationPoint.y + direction.y * stepSize * ((i : ℝ) + 1)⟩)

/-- The named `{main, branch1, branch2}` triple of centerlines. -/
structure VesselSet where
  main : List Pt
  branch1 : List Pt
  branch2 : List Pt

/-- `generateAdjustedSegments` (geometryCalculations.js lines 468-476):
`segmentLength = 25` px. -/
def generateAdjustedSegments (bifurcationPoint : Pt)
    (mainCenterline branch1Centerline branch2Centerline : List Pt) : VesselSet :=
  ⟨generateSegmentFromBifurcation bifurcationPoint mainCenterline 25 .main,
   generateSegmentFromBifurcation bifurcationPoint branch1Centerline 25 .branch1,
   generateSegmentFromBifurcation bifurcationPoint branch2Centerline 25 .branch2⟩

/-- The estimator labels of `detectBifurcationPoint`. -/
inductive BifMethod where
  | closest_approach
  | intersection
  | centroid
  deriving DecidableEq

/-- A scored bifurcation candidate. -/
structure Candidate where
  point : Pt
  method : BifMethod
  score : ℝ

/-- The `{bifurcationPoint, method, confidence, adjustedSegments}` result. -/
structure BifurcationResult where
  bifurcationPoint : Pt
  method : BifMethod
  confidence : ℝ
  adjustedSegments : VesselSet

/-- Turn one estimator's optional result into candidate-list entries. -/
def optCand (m : BifMethod) : Option (Pt × ℝ) → List Candidate
  | none => []
  | some (p, s) => [⟨p, m, s⟩]

/-- `detectBifurcationPoint` (geometryCalculations.js lines 273-322): guards
non-empty centerlines, pools the three estimators' candidates, errors when
the pool is empty, otherwise picks the strictly-highest score (first seen
wins ties) and derives the adjusted segments from the winning point. -/
def detectBifurcationPoint (mainCenterline branch1Centerline branch2Centerline :
    List Pt) : Except Err BifurcationResult :=
  if mainCenterline.length = 0 ∨ branch1Centerline.length = 0 ∨
      branch2Centerline.length = 0 then
    .error .emptyCenterlines
  else
    let candidates :=
      optCand .closest_approach (findClosestApproachPoint mainCenterline
        branch1Centerline branch2Centerline) ++
      optCand .intersection (findVesselIntersection mainCenterline
        branch1Centerline branch2Centerline) ++
      optCand .centroid (findEndpointCentroid mainCenterline
        branch1Centerline branch2Centerline)
    match candidates with
    | [] => .error .bifurcationNotFound
    | c :: rest =>
      let bestCandidate := rest.foldl (fun best current =>
        if best.score < current.score then current else best) c
      .ok ⟨bestCandidate.point, bestCandidate.method, bestCandidate.score,
           generateAdjustedSegments bestCandidate.point mainCenterline
             branch1Centerline branch2Centerline⟩

/-- The `reduce` over the tail lands on a list element. -/
lemma foldl_furthestStep_mem (bp : Pt) :
    ∀ (t : List Pt) (h : Pt), t.foldl (furthestStep bp) h ∈ h :: t := by
  intro t
  induction t with
  | nil => intro h; exact List.mem_cons_self h []
  | cons p t ih =>
    intro h
    rw [List.foldl_cons]
    rcases List.mem_cons.mp (ih (furthestStep bp h p)) with heq | hmem
    · rw [heq, furthestStep]
      by_cases hc : distance h bp < distance p bp
      · rw [if_pos hc]
        exact List.mem_cons_of_mem _ (List.mem_cons_self _ _)
      · rw [if_neg hc]
        exact List.mem_cons_self _ _
    · exact List.mem_cons_of_mem _ (List.mem_cons_of_mem _ hmem)

/-- The `reduce` over the tail maximizes the distance to the bifurcation. -/
lemma foldl_furthestStep_ge (bp : Pt) :
    ∀ (t : List Pt) (h q : Pt), q ∈ h :: t →
      distance q bp ≤ distance (t.foldl (furthestStep bp) h) bp := by
  intro t
  induction t with
  | nil =>
    intro h q hq
    rw [List.mem_singleton.mp hq, List.foldl_nil]
  | cons p t ih =>
    intro h q hq
    rw [List.foldl_cons]
    have hh : distance h bp ≤ distance (furthestStep bp h p) bp := by
      rw [furthestStep]
      by_cases hc : distance h bp < distance p bp
      · rw [if_pos hc]; exact le_of_lt hc
      · rw [if_neg hc]
    have hp : distance p bp ≤ distance (furthestStep bp h p) bp := by
      rw [furthestStep]
      by_cases hc : distance h bp < distance p bp
      · rw [if_pos hc]
      · rw [if_neg hc]; exact le_of_not_lt hc
    have hbase : distance (furthestStep bp h p) bp
        ≤ distance (t.foldl (furthestStep bp) (furthestStep bp h p)) bp :=
      ih (furthestStep bp h p) (furthestStep bp h p) (List.mem_cons_self _ _)
    rcases List.mem_cons.mp hq with rfl | hq'
    · exact le_trans hh hbase
    rcases List.mem_cons.mp hq' with rfl | hq''
    · exact le_trans hp hbase
    · exact ih (furthestStep bp h p) q (List.mem_cons_of_mem _ hq'')

/-- `Math.floor(25 / 2) = 12`: the adjusted segments take 12 steps. -/
lemma floor_25_div_2 : ⌊(25 : ℝ) / 2⌋₊ = 12 := by
  rw [show (25 : ℝ) / 2 = 12.5 by norm_num, Nat.floor_eq_iff (by norm_num)]
  norm_num

/-- The `k`-th point of an adjusted segment: the bifurcation point moved `2k`
pixels toward the most distant centerline point. -/
def walkPt (bp tp : Pt) (k : ℝ) : Pt :=
  ⟨bp.x + (tp.x - bp.x) / distance tp bp * 2 * k,
   bp.y + (tp.y - bp.y) / distance tp bp * 2 * k⟩

/-- The shape C7 asserts of an adjusted segment `s` derived from centerline
`c` and bifurcation point `bp`: non-empty, anchored exactly at `bp`, and
(when it has more than the anchor) walking in steps of 2px toward a point of
`c` most distant from `bp`. -/
def segSpec (bp : Pt) (c : List Pt) (s : List Pt) : Prop :=
  s ≠ [] ∧ s.head? = some bp ∧
  (1 < s.length → ∃ tp, tp ∈ c ∧ (∀ q ∈ c, distance q bp ≤ distance tp bp) ∧
    distance tp bp ≠ 0 ∧ ∀ k, k < s.length → s.get? k = some (walkPt bp tp (k : ℝ)))

/-- Case analysis of `generateSegmentFromBifurcation` at the production
length 25: either the degenerate singleton, or the anchored 12-step walk
toward a most-distant centerline point. -/
lemma generateSegment_cases (bp : Pt) (c : List Pt) (vt : VesselKind) :
    generateSegmentFromBifurcation bp c 25 vt = [bp] ∨
    ∃ tp, tp ∈ c ∧ (∀ q ∈ c, distance q bp ≤ distance tp bp) ∧
      distance tp bp ≠ 0 ∧
      generateSegmentFromBifurcation bp c 25 vt
        = bp :: (List.range 12).map (fun (i : ℕ) => walkPt bp tp ((i : ℝ) + 1)) := by
  by_cases hlen : c.length < 2
  · left
    rw [generateSegmentFromBifurcation, if_pos hlen]
  · rw [generateSegmentFromBifurcation, if_neg hlen,
      findDirectionFromBifurcation.eq_def, if_neg hlen]
    cases c with
    | nil => exact absurd (by norm_num : ([] : List Pt).length < 2) hlen
    | cons first rest =>
      by_cases hz : Real.sqrt
          (((rest.foldl (furthestStep bp) first).x - bp.x) *
            ((rest.foldl (furthestStep bp) first).x - bp.x) +
           ((rest.foldl (furthestStep bp) first).y - bp.y) *
            ((rest.foldl (furthestStep bp) first).y - bp.y)) = 0
      · left
        simp only [if_pos hz]
      · right
        refine ⟨rest.foldl (furthestStep bp) first,
          foldl_furthestStep_mem bp rest first,
          fun q hq => foldl_furthestStep_ge bp rest first q hq,
          fun h0 => hz h0, ?_⟩
        simp only [if_neg hz]
        rw [floor_25_div_2]
        rfl

/-- Every adjusted segment satisfies the C7 shape. -/
lemma segSpec_generate (bp : Pt) (c : List Pt) (vt : VesselKind) :
    segSpec bp c (generateSegmentFromBifurcation bp c 25 vt) := by
  rcases generateSegment_cases bp c vt with h | ⟨tp, hmem, hge, hnz, h⟩
  · rw [segSpec, h]
    refine ⟨by simp, rfl, ?_⟩
    intro hlt
    simp at hlt
  · rw [segSpec, h]
    refine ⟨by simp, rfl, fun _ => ⟨tp, hmem, hge, hnz, ?_⟩⟩
    intro k hk
    have hlen : (bp :: (List.range 12).map
        (fun (i : ℕ) => walkPt bp tp ((i : ℝ) + 1))).length = 13 := by simp
    rw [hlen] at hk
    cases k with
    | zero =>
      have h0 : walkPt bp tp ((0 : ℕ) : ℝ) = bp := by
        ext <;> simp [walkPt]
      rw [List.get?_cons_zero, h0]
    | succ k =>
      have hk12 : k < 12 := by omega
      have hcast : ((k + 1 : ℕ) : ℝ) = (k : ℝ) + 1 := by push_cast; ring
      rw [List.get?_cons_succ, List.get?_map, List.get?_range hk12,
        Option.map_some', hcast]

/-- C7: every successful `detectBifurcationPoint` returns adjusted segments
that are non-empty, start exactly at the returned bifurcation point, and walk
from it toward the most distant point of the corresponding centerline. -/
theorem claim_C7_adjusted_segments (c1 c2 c3 : List Pt) (r : BifurcationResult)
    (h : detectBifurcationPoint c1 c2 c3 = .ok r) :
    segSpec r.bifurcationPoint c1 r.adjustedSegments.main ∧
    segSpec r.bifurcationPoint c2 r.adjustedSegments.branch1 ∧
    segSpec r.bifurcationPoint c3 r.adjustedSegments.branch2 := by
  rw [detectBifurcationPoint] at h
  by_cases hg : c1.length = 0 ∨ c2.length = 0 ∨ c3.length = 0
  · rw [if_pos hg] at h
    exact absurd h (by simp)
  · rw [if_neg hg] at h
    set cands := optCand .closest_approach (findClosestApproachPoint c1 c2 c3) ++
      optCand .intersection (findVesselIntersection c1 c2 c3) ++
      optCand .centroid (findEndpointCentroid c1 c2 c3) with hcands
    rcases hcv : cands with _ | ⟨c, rest⟩
    · rw [hcv] at h
      exact absurd h (by simp)
    · rw [hcv] at h
      simp only [Except.ok.injEq] at h
      subst h
      exact ⟨segSpec_generate _ c1 .main, segSpec_generate _ c2 .branch1,
        segSpec_generate _ c3 .branch2⟩

/-- The centroid score `1 / (1 + maxDist + avgDist)` is strictly positive. -/
lemma centroidScore_pos (d1 d2 d3 : ℝ) (h1 : 0 ≤ d1) (h2 : 0 ≤ d2) (h3 : 0 ≤ d3) :
    0 < 1 / (1 + max d1 (max d2 d3) + (d1 + d2 + d3) / 3) := by
  apply div_pos one_pos
  have hm : 0 ≤ max d1 (max d2 d3) := le_trans h1 (le_max_left _ _)
  linarith

/-- `centroidStep` keeps a positive-scored candidate. -/
lemma centroidStep_preserve (st : Option Pt × ℝ) (combo : Pt × Pt × Pt)
    (h1 : ∃ p, st.1 = some p) (h2 : 0 < st.2) :
    (∃ p, (centroidStep st combo).1 = some p) ∧ 0 < (centroidStep st combo).2 := by
  rw [centroidStep]
  split
  next hif => exact ⟨⟨_, rfl⟩, lt_trans h2 hif⟩
  next _ => exact ⟨h1, h2⟩

/-- `centroidStep` on the initial `(null, 0)` state always accepts. -/
lemma centroidStep_first (combo : Pt × Pt × Pt) :
    (∃ p, (centroidStep (none, 0) combo).1 = some p) ∧
    0 < (centroidStep (none, 0) combo).2 := by
  rw [centroidStep]
  split
  next hif => exact ⟨⟨_, rfl⟩, lt_of_le_of_lt (le_refl 0) hif⟩
  next hif =>
    exfalso
    apply hif
    exact centroidScore_pos _ _ _ (distance_nonneg _ _) (distance_nonneg _ _)
      (distance_nonneg _ _)

/-- Folding `centroidStep` preserves a positive-scored candidate. -/
lemma foldl_centroidStep_preserve :
    ∀ (l : List (Pt × Pt × Pt)) (st : Option Pt × ℝ),
      (∃ p, st.1 = some p) → 0 < st.2 →
      (∃ p, (l.foldl centroidStep st).1 = some p) ∧
        0 < (l.foldl centroidStep st).2 := by
  intro l
  induction l with
  | nil => intro st h1 h2; exact ⟨h1, h2⟩
  | cons combo t ih =>
    intro st h1 h2
    rw [List.foldl_cons]
    obtain ⟨k1, k2⟩ := centroidStep_preserve st combo h1 h2
    exact ih _ k1 k2

/-- Folding `centroidStep` from `(null, 0)` over a non-empty combination list
yields a candidate with positive score. -/
lemma foldl_centroidStep_cons (combo : Pt × Pt × Pt) (t : List (Pt × Pt × Pt)) :
    (∃ p, ((combo :: t).foldl centroidStep (none, 0)).1 = some p) ∧
    0 < ((combo :: t).foldl centroidStep (none, 0)).2 := by
  rw [List.foldl_cons]
  obtain ⟨k1, k2⟩ := centroidStep_first combo
  exact foldl_centroidStep_preserve t _ k1 k2

/-- For non-empty centerlines, `findEndpointCentroid` always produces a
candidate, and its score is strictly positive. -/
lemma findEndpointCentroid_some (c1 c2 c3 : List Pt)
    (h1 : c1 ≠ []) (h2 : c2 ≠ []) (h3 : c3 ≠ []) :
    ∃ p s, findEndpointCentroid c1 c2 c3 = some (p, s) ∧ 0 < s := by
  rw [findEndpointCentroid]
  rw [List.head?_eq_head h1, List.head?_eq_head h2, List.head?_eq_head h3,
    List.getLast?_eq_getLast_of_ne_nil h1, List.getLast?_eq_getLast_of_ne_nil h2,
    List.getLast?_eq_getLast_of_ne_nil h3]
  simp only [List.flatMap_cons, List.flatMap_nil, List.map_cons, List.map_nil,
    List.append_nil, List.cons_append, List.nil_append]
  obtain ⟨⟨p, hp⟩, hpos⟩ := foldl_centroidStep_cons
    (c1.head h1, c2.head h2, c3.head h3)
    [(c1.head h1, c2.head h2, c3.getLast h3),
     (c1.head h1, c2.getLast h2, c3.head h3),
     (c1.head h1, c2.getLast h2, c3.getLast h3),
     (c1.getLast h1, c2.head h2, c3.head h3),
     (c1.getLast h1, c2.head h2, c3.getLast h3),
     (c1.getLast h1, c2.getLast h2, c3.head h3),
     (c1.getLast h1, c2.getLast h2, c3.getLast h3)]
  rw [hp]
  exact ⟨p, _, rfl, hpos⟩

/-- C10: for non-empty centerlines, `detectBifurcationPoint` never reaches the
`BifurcationNotFound` branch: the endpoint-centroid estimator always supplies
a candidate with strictly positive score, so detection succeeds. -/
theorem claim_C10_no_bifurcation_not_found (c1 c2 c3 : List Pt)
    (h1 : c1 ≠ []) (h2 : c2 ≠ []) (h3 : c3 ≠ []) :
    (∃ p s, findEndpointCentroid c1 c2 c3 = some (p, s) ∧ 0 < s) ∧
    ∃ r, detectBifurcationPoint c1 c2 c3 = .ok r := by
  obtain ⟨p, s, hc, hs⟩ := findEndpointCentroid_some c1 c2 c3 h1 h2 h3
  refine ⟨⟨p, s, hc, hs⟩, ?_⟩
  rw [detectBifurcationPoint,
    if_neg (by simp [List.length_eq_zero, h1, h2, h3]), hc]
  set cands := optCand .closest_approach (findClosestApproachPoint c1 c2 c3) ++
    optCand .intersection (findVesselIntersection c1 c2 c3) ++
    optCand .centroid (some (p, s)) with hcands
  have hne : cands ≠ [] := by
    rw [hcands]
    simp [optCand]
  rcases hcv : cands with _ | ⟨c, rest⟩
  · exact absurd hcv hne
  · exact ⟨_, rfl⟩

/-- Witness for C10 at concrete single-point centerlines. -/
theorem claim_C10_witness :
    (∃ p s, findEndpointCentroid [(⟨0, 0⟩ : Pt)] [⟨0, 0⟩] [⟨0, 0⟩]
      = some (p, s) ∧ 0 < s) ∧
    ∃ r, detectBifurcationPoint [(⟨0, 0⟩ : Pt)] [⟨0, 0⟩] [⟨0, 0⟩] = .ok r :=
  claim_C10_no_bifurcation_not_found [⟨0, 0⟩] [⟨0, 0⟩] [⟨0, 0⟩]
    (List.cons_ne_nil _ _) (List.cons_ne_nil _ _) (List.cons_ne_nil _ _)

/-- The closest-approach estimator yields no candidate on single-point
centerlines (all segment distances stay at the float `Infinity`). -/
lemma findClosestApproach_single :
    findClosestApproachPoint [(⟨0, 0⟩ : Pt)] [⟨0, 0⟩] [⟨0, 0⟩] = none := by
  simp [findClosestApproachPoint, getMinDistanceToLine]

/-- The intersection estimator yields no candidate on single-point
centerlines (no vessel direction can be computed). -/
lemma findVesselIntersection_single :
    findVesselIntersection [(⟨0, 0⟩ : Pt)] [⟨0, 0⟩] [⟨0, 0⟩] = none := by
  simp [findVesselIntersection, calculateVesselDirection]

/-- The endpoint-centroid estimator on three copies of the single point
`(0, 0)` returns that point with score 1. -/
lemma findEndpointCentroid_single :
    findEndpointCentroid [(⟨0, 0⟩ : Pt)] [⟨0, 0⟩] [⟨0, 0⟩]
      = some (⟨0, 0⟩, 1) := by
  norm_num [findEndpointCentroid, centroidStep, distance, Real.sqrt_zero,
    max_self]

/-- Full evaluation of `detectBifurcationPoint` on three single-point
centerlines: the centroid candidate wins and each adjusted segment degenerates
to the bifurcation point alone. -/
lemma detect_single :
    detectBifurcationPoint [(⟨0, 0⟩ : Pt)] [⟨0, 0⟩] [⟨0, 0⟩]
      = .ok ⟨⟨0, 0⟩, .centroid, 1, ⟨[⟨0, 0⟩], [⟨0, 0⟩], [⟨0, 0⟩]⟩⟩ := by
  rw [detectBifurcationPoint, if_neg (by simp), findClosestApproach_single,
    findVesselIntersection_single, findEndpointCentroid_single]
  simp only [optCand, List.nil_append, List.foldl_nil]
  simp [generateAdjustedSegments, generateSegmentFromBifurcation]

/-- Witness for C7 at the single-point centerlines. -/
theorem claim_C7_witness :
    segSpec (⟨0, 0⟩ : Pt) [(⟨0, 0⟩ : Pt)] [(⟨0, 0⟩ : Pt)] ∧
    segSpec (⟨0, 0⟩ : Pt) [(⟨0, 0⟩ : Pt)] [(⟨0, 0⟩ : Pt)] ∧
    segSpec (⟨0, 0⟩ : Pt) [(⟨0, 0⟩ : Pt)] [(⟨0, 0⟩ : Pt)] :=
  claim_C7_adjusted_segments [⟨0, 0⟩] [⟨0, 0⟩] [⟨0, 0⟩]
    ⟨⟨0, 0⟩, .centroid, 1, ⟨[⟨0, 0⟩], [⟨0, 0⟩], [⟨0, 0⟩]⟩⟩ detect_single

/-- C9: `triangulate3DPoint` returns the constant `[0, 0, 0]` for every pair of
2D points and every pair of 3x4 projection matrices: `solveDLT` is a placeholder
always returning `[0, 0, 0, 1]`, so the output is input-independent and the
"Point at infinity" error branch is never taken. -/
theorem claim_C9_triangulation_placeholder :
    (∀ A : List Row4, solveDLT A = (0, 0, 0, 1)) ∧
    ∀ (p1 p2 : Pt) (P1 P2 : Mat34),
      triangulate3DPoint p1 p2 P1 P2 = .ok ⟨0, 0, 0⟩ := by
  refine ⟨fun A => rfl, fun p1 p2 P1 P2 => ?_⟩
  simp [triangulate3DPoint, solveDLT]

end
